import Mathlib

/-!
Verification development for the EATCalc slice-viewer cache-and-prefetch engine
(`src/hooks/useEATAnalysis.ts`, viewer hook section; the older evolutionary
variant lives in `src/hooks/useSliceViewer.ts` / `unnamed/part_000`).

Shallow embedding conventions:
* JavaScript numbers used as slice indices / rotation degrees are modelled as `Int`;
  fractional quantities (velocity, opacity, accumulators, timestamps) as `ℚ`.
* The JS `Map` (insertion-ordered, duplicate-free keys) backing the slice cache is
  modelled as an association list `List (Int × SliceImageSet)`, oldest entry first;
  `map.delete k; map.set k v` is delete-then-append, and the eviction loop
  `while (cache.size > LIMIT) cache.delete(cache.keys().next().value)` drops the
  head entry.
* Decoded images are opaque: a `SliceImageSet` carries three opaque image ids.
* The asynchronous fetch/prefetch machinery is modelled by explicit state plus
  resolution events: issuing a fetch appends a pending record; the environment
  later resolves it (success with an arbitrary image set, or failure), running
  the continuation exactly as the source's `then`/`catch`/`finally` does.
* `AbortController` is modelled by controller ids plus a set of aborted ids; the
  source's `controller.signal.aborted` check becomes membership in that set.
-/

namespace EATCalc

/-- One slice's three decoded overlay images (`SliceImageSet` in the source).
Images are opaque; we carry ids only. -/
structure SliceImageSet where
  ct : Nat
  eat : Nat
  pericardium : Nat
  deriving DecidableEq

/-- `{ sliceIndex, ...sliceSet }` as stored in the `sliceImages` React state and
in `lastRenderedRef`. -/
structure RenderedImages where
  sliceIndex : Int
  images : SliceImageSet
  deriving DecidableEq

/-- The slice cache: JS `Map<number, SliceImageSet>` modelled as an insertion-ordered
association list (oldest first). -/
abbrev Cache := List (Int × SliceImageSet)

/-- `const SLICE_CACHE_LIMIT = 40`. -/
def SLICE_CACHE_LIMIT : Nat := 40

/-- `const PREFETCH_RADIUS = 3`. -/
def PREFETCH_RADIUS : Int := 3

/-- `const MAX_WHEEL_VELOCITY = 8`. -/
def MAX_WHEEL_VELOCITY : ℚ := 8

/-- `const WHEEL_SCALE = 0.01`. -/
def WHEEL_SCALE : ℚ := 1/100

/-- JS `Map.get k` (no recency side effect). -/
def cacheLookup (c : Cache) (k : Int) : Option SliceImageSet :=
  (c.find? (fun p => p.1 == k)).map (fun p => p.2)

/-- JS `Map.delete k`: removes the entry with key `k` (keys are duplicate-free,
so filtering removes at most one entry). -/
def mapDelete (c : Cache) (k : Int) : Cache :=
  c.filter (fun p => p.1 ≠ k)

/-- JS `Map.set k v`: updates in place when the key is present (keeping its
position), otherwise appends at the most-recently-inserted end. -/
def mapSet (c : Cache) (k : Int) (v : SliceImageSet) : Cache :=
  if c.any (fun p => p.1 == k) then
    c.map (fun p => if p.1 == k then (k, v) else p)
  else
    c ++ [(k, v)]

/-- Fuel-indexed unfolding of the eviction loop: each iteration drops the
oldest (head) entry, so `c.length` rounds of fuel always suffice. -/
def evictOldestAux : Nat → Cache → Cache
  | 0, c => c
  | fuel + 1, c =>
    if c.length > SLICE_CACHE_LIMIT then evictOldestAux fuel (c.drop 1) else c

/-- `while (cache.size > SLICE_CACHE_LIMIT) { cache.delete(cache.keys().next().value) }`:
repeatedly drop the oldest (head) entry while over capacity. -/
def evictOldest (c : Cache) : Cache :=
  evictOldestAux c.length c

/-- `cacheSliceSet` (useEATAnalysis.ts lines 302-310): delete, re-insert at the
most-recently-used end, then evict oldest entries beyond capacity. -/
def cacheSliceSet (c : Cache) (sliceIndex : Int) (sliceSet : SliceImageSet) : Cache :=
  evictOldest (mapSet (mapDelete c sliceIndex) sliceIndex sliceSet)

/-- The cache-hit recency refresh in `loadSliceImages` (lines 360-362): on a hit
the cached value is re-inserted via `cacheSliceSet`. -/
def touchSlice (c : Cache) (sliceIndex : Int) : Cache :=
  match cacheLookup c sliceIndex with
  | some v => cacheSliceSet c sliceIndex v
  | none => c

/-- `ViewerState` from `types/eat.ts`. -/
structure ViewerState where
  currentSlice : Int
  totalSlices : Int
  showCT : Bool
  showEAT : Bool
  showPericardium : Bool
  overlayOpacity : ℚ
  rotation : Int
  deriving DecidableEq

/-- The initial viewer state of `useSliceViewer(initialTotalSlices = 120)`:
`currentSlice = Math.floor(initialTotalSlices / 2)`, `rotation = 0`. -/
def initialViewerState (initialTotalSlices : Int) : ViewerState :=
  { currentSlice := Int.fdiv initialTotalSlices 2
    totalSlices := initialTotalSlices
    showCT := true
    showEAT := true
    showPericardium := true
    overlayOpacity := 7/10
    rotation := 0 }

/-- `clampSlice` (lines 467-469): `Math.max(0, Math.min(slice, total - 1))`. -/
def clampSlice (slice total : Int) : Int :=
  max 0 (min slice (total - 1))

/-- `setSlice` (lines 510-515). -/
def setSlice (slice : Int) (v : ViewerState) : ViewerState :=
  { v with currentSlice := clampSlice slice v.totalSlices }

/-- `nextSlice` (lines 517-522). -/
def nextSlice (v : ViewerState) : ViewerState :=
  { v with currentSlice := clampSlice (v.currentSlice + 1) v.totalSlices }

/-- `prevSlice` (lines 524-529). -/
def prevSlice (v : ViewerState) : ViewerState :=
  { v with currentSlice := clampSlice (v.currentSlice - 1) v.totalSlices }

/-- The layer argument of `toggleLayer`. -/
inductive Layer where
  | ct
  | eat
  | pericardium
  deriving DecidableEq

/-- `toggleLayer` (lines 531-538). -/
def toggleLayer (layer : Layer) (v : ViewerState) : ViewerState :=
  { v with
    showCT := if layer = .ct then !v.showCT else v.showCT
    showEAT := if layer = .eat then !v.showEAT else v.showEAT
    showPericardium := if layer = .pericardium then !v.showPericardium else v.showPericardium }

/-- `setOpacity` (lines 540-545): `Math.max(0, Math.min(1, opacity))`. -/
def setOpacity (opacity : ℚ) (v : ViewerState) : ViewerState :=
  { v with overlayOpacity := max 0 (min 1 opacity) }

/-- `rotateLeft` (lines 547-552): `(rotation + 270) % 360` with JS truncated `%`. -/
def rotateLeft (v : ViewerState) : ViewerState :=
  { v with rotation := (v.rotation + 270).tmod 360 }

/-- `rotateRight` (lines 554-559): `(rotation + 90) % 360` with JS truncated `%`. -/
def rotateRight (v : ViewerState) : ViewerState :=
  { v with rotation := (v.rotation + 90).tmod 360 }

/-- `setTotalSlices` (lines 561-567). -/
def setTotalSlices (total : Int) (v : ViewerState) : ViewerState :=
  { v with totalSlices := total, currentSlice := clampSlice v.currentSlice total }

/-- The wheel-inertia refs: `wheelVelocityRef`, `wheelAccumRef`, `wheelLastTimeRef`,
and whether an animation frame is scheduled (`wheelRafRef !== null`). -/
structure WheelState where
  velocity : ℚ
  accum : ℚ
  lastTime : Option ℚ
  rafActive : Bool
  deriving DecidableEq

/-- Initial wheel refs: velocity 0, accumulator 0, no timing, no scheduled frame. -/
def initialWheelState : WheelState :=
  { velocity := 0, accum := 0, lastTime := none, rafActive := false }

/-- The step computation in `applyWheelInertia` (lines 487-489):
`accum >= 0 ? Math.floor(accum) : Math.ceil(accum)`. -/
def wheelStepOf (accum : ℚ) : Int :=
  if 0 ≤ accum then ⌊accum⌋ else ⌈accum⌉

/-- `applyWheelInertia` (lines 471-500).  `decay` abstracts the float expression
`Math.pow(WHEEL_FRICTION, ·)` (friction 0.85 raised to a possibly fractional
exponent, which has no exact rational value); every claim proved below holds for
an arbitrary decay function.  `16.67` is the per-frame millisecond budget. -/
def applyWheelInertia (decay : ℚ → ℚ) (timestamp : ℚ) (w : WheelState) (v : ViewerState) :
    WheelState × ViewerState :=
  let last := w.lastTime.getD timestamp
  let dt := (timestamp - last) / (1667/100)
  if |w.velocity| < 1/100 then
    ({ velocity := 0, accum := w.accum, lastTime := none, rafActive := false }, v)
  else
    let accum := w.accum + w.velocity * dt
    let step := wheelStepOf accum
    let accum' := if step ≠ 0 then accum - step else accum
    let v' := if step ≠ 0 then
        { v with currentSlice := clampSlice (v.currentSlice + step) v.totalSlices }
      else v
    ({ velocity := w.velocity * decay (max 1 dt)
       accum := accum'
       lastTime := some timestamp
       rafActive := true }, v')

/-- `onWheelDelta` (lines 502-508): accumulate the scaled delta into velocity,
clamped to `±MAX_WHEEL_VELOCITY`, and make sure the animation loop is scheduled. -/
def onWheelDelta (deltaY : ℚ) (w : WheelState) : WheelState :=
  let nextVelocity := w.velocity + deltaY * WHEEL_SCALE
  { w with
    velocity := max (-MAX_WHEEL_VELOCITY) (min MAX_WHEEL_VELOCITY nextVelocity)
    rafActive := true }

/-- The navigation-facing state: the `ViewerState` React state plus the wheel refs. -/
abbrev NavState := ViewerState × WheelState

/-- Initial `NavState` of the hook. -/
def initialNavState (initialTotalSlices : Int) : NavState :=
  (initialViewerState initialTotalSlices, initialWheelState)

/-- One call of a viewer mutator (or one wheel animation-frame tick). -/
inductive MutatorOp where
  | mSetSlice (n : Int)
  | mNextSlice
  | mPrevSlice
  | mToggleLayer (layer : Layer)
  | mSetOpacity (opacity : ℚ)
  | mRotateLeft
  | mRotateRight
  | mSetTotalSlices (total : Int)
  | mWheelDelta (deltaY : ℚ)
  | mWheelFrame (decay : ℚ → ℚ) (timestamp : ℚ)

/-- Dispatch one mutator call on the navigation state. -/
def stepMutator (s : NavState) (op : MutatorOp) : NavState :=
  match op with
  | .mSetSlice n => (setSlice n s.1, s.2)
  | .mNextSlice => (nextSlice s.1, s.2)
  | .mPrevSlice => (prevSlice s.1, s.2)
  | .mToggleLayer layer => (toggleLayer layer s.1, s.2)
  | .mSetOpacity q => (setOpacity q s.1, s.2)
  | .mRotateLeft => (rotateLeft s.1, s.2)
  | .mRotateRight => (rotateRight s.1, s.2)
  | .mSetTotalSlices t => (setTotalSlices t s.1, s.2)
  | .mWheelDelta d => (s.1, onWheelDelta d s.2)
  | .mWheelFrame decay ts =>
      let r := applyWheelInertia decay ts s.2 s.1
      (r.2, r.1)

/-- Run a sequence of mutator calls. -/
def runMutators (s : NavState) (ops : List MutatorOp) : NavState :=
  ops.foldl stepMutator s

/-- Whether one mutator call respects the restriction of claim C7:
`setTotalSlices` is only called with a positive total. -/
def totalOk : MutatorOp → Bool
  | .mSetTotalSlices t => decide (0 < t)
  | _ => true

/-- Every `setTotalSlices` call in the sequence passes a positive total. -/
def validTotals (ops : List MutatorOp) : Bool :=
  ops.all totalOk

/-- The ViewerState slice invariant: `0 ≤ currentSlice ≤ totalSlices - 1`. -/
def sliceInv (v : ViewerState) : Prop :=
  0 ≤ v.currentSlice ∧ v.currentSlice ≤ v.totalSlices - 1

instance (v : ViewerState) : Decidable (sliceInv v) := by
  unfold sliceInv; infer_instance

/-- The spec's `clamp(n, lo, hi)`. -/
def specClamp (n lo hi : Int) : Int :=
  max lo (min n hi)

/-- An outstanding authoritative (current-slice) fetch: the controller id of its
`AbortController`, and the values the `loadSliceImages` closure captured —
slice index, session (`analysisIdValue`), and `viewerState.totalSlices`. -/
structure PendingFetch where
  ctrl : Nat
  sliceIndex : Int
  session : Nat
  total : Int
  deriving DecidableEq

/-- An outstanding prefetch promise: the slice index and the session
(`analysisIdValue`) captured by the `prefetchSlice` closure. -/
structure PendingPrefetch where
  sliceIndex : Int
  session : Nat
  deriving DecidableEq

/-- The whole cooperative-concurrency state of the viewer hook: React state
(`analysisId`, `viewerState`, `sliceImages`) plus the refs
(`sliceCacheRef`, `prefetchInFlightRef`, `fetchControllerRef`,
`lastRenderedRef`) plus bookkeeping for outstanding promises and aborted
controllers. -/
structure EngineState where
  analysisId : Option Nat
  viewer : ViewerState
  cache : Cache
  prefetchInFlight : List Int
  fetchController : Option Nat
  aborted : List Nat
  nextCtrl : Nat
  pendingFetches : List PendingFetch
  pendingPrefetches : List PendingPrefetch
  sliceImages : Option RenderedImages
  lastRendered : Option RenderedImages
  deriving DecidableEq

/-- Fresh engine state of one `useSliceViewer()` instance (no session selected). -/
def initialEngineState : EngineState :=
  { analysisId := none
    viewer := initialViewerState 120
    cache := []
    prefetchInFlight := []
    fetchController := none
    aborted := []
    nextCtrl := 0
    pendingFetches := []
    pendingPrefetches := []
    sliceImages := none
    lastRendered := none }

/-- `prefetchSlice` (lines 335-350), synchronous part: skip indices already
cached or already in flight; otherwise mark in flight and start the fetch
(recorded as a pending prefetch promise — its continuation runs in
`resolvePrefetch`). -/
def prefetchSlice (s : EngineState) (sliceIndex : Int) (session : Nat) : EngineState :=
  if (cacheLookup s.cache sliceIndex).isSome ∨ sliceIndex ∈ s.prefetchInFlight then s
  else
    { s with
      prefetchInFlight := s.prefetchInFlight ++ [sliceIndex]
      pendingPrefetches := s.pendingPrefetches ++ [⟨sliceIndex, session⟩] }

/-- Issue prefetches for a list of candidate indices in order. -/
def prefetchMany (s : EngineState) (session : Nat) (js : List Int) : EngineState :=
  js.foldl (fun t j => prefetchSlice t j session) s

/-- The candidate indices of the prefetch loop (lines 364-373 / 388-397),
unrolled for `PREFETCH_RADIUS = 3`: for each offset the forward index is tried
first (guard `forward < totalSlices`), then the backward index
(guard `backward >= 0`). -/
def neighborCandidates (i total : Int) : List Int :=
  (if i + 1 < total then [i + 1] else []) ++ (if 0 ≤ i - 1 then [i - 1] else []) ++
  ((if i + 2 < total then [i + 2] else []) ++ (if 0 ≤ i - 2 then [i - 2] else []) ++
   ((if i + 3 < total then [i + 3] else []) ++ (if 0 ≤ i - 3 then [i - 3] else [])))

/-- `loadSliceImages` (lines 352-404), synchronous part.  No session: clear
`sliceImages`.  Cache hit: refresh recency, publish the cached images, prefetch
neighbors.  Cache miss: abort the previous authoritative controller, allocate a
fresh one, and start the fetch (recorded as a pending fetch promise — its
continuation runs in `resolveFetchSuccess`/`resolveFetchFailure`). -/
def loadSliceImages (s : EngineState) (sliceIndex : Int) : EngineState :=
  match s.analysisId with
  | none => { s with sliceImages := none }
  | some analysisIdValue =>
    match cacheLookup s.cache sliceIndex with
    | some cached =>
      let s1 : EngineState :=
        { s with
          cache := cacheSliceSet s.cache sliceIndex cached
          sliceImages := some ⟨sliceIndex, cached⟩ }
      prefetchMany s1 analysisIdValue (neighborCandidates sliceIndex s.viewer.totalSlices)
    | none =>
      let abortedNow := match s.fetchController with
        | some c => c :: s.aborted
        | none => s.aborted
      { s with
        aborted := abortedNow
        fetchController := some s.nextCtrl
        nextCtrl := s.nextCtrl + 1
        pendingFetches :=
          s.pendingFetches ++ [⟨s.nextCtrl, sliceIndex, analysisIdValue, s.viewer.totalSlices⟩] }

/-- Remove the resolved promise record for controller `ctrl`. -/
def removePendingFetch (s : EngineState) (ctrl : Nat) : EngineState :=
  { s with pendingFetches := s.pendingFetches.filter (fun q => q.ctrl ≠ ctrl) }

/-- The success continuation of the authoritative fetch (lines 385-398), which
runs after the `!controller.signal.aborted` guard: insert into the cache,
publish the images, and prefetch neighbors using the captured session and
total. -/
def applyFetchSuccess (s : EngineState) (p : PendingFetch) (sliceSet : SliceImageSet) :
    EngineState :=
  let s1 : EngineState :=
    { s with
      cache := cacheSliceSet s.cache p.sliceIndex sliceSet
      sliceImages := some ⟨p.sliceIndex, sliceSet⟩ }
  prefetchMany s1 p.session (neighborCandidates p.sliceIndex p.total)

/-- Resolution of an authoritative fetch promise with a decoded image set.
Per the source (lines 384-398): the continuation checks
`controller.signal.aborted` and does nothing further when the controller was
aborted. -/
def resolveFetchSuccess (s : EngineState) (ctrl : Nat) (sliceSet : SliceImageSet) :
    EngineState :=
  match s.pendingFetches.find? (fun p => p.ctrl == ctrl) with
  | none => s
  | some p =>
    let s1 := removePendingFetch s ctrl
    if ctrl ∈ s1.aborted then s1 else applyFetchSuccess s1 p sliceSet

/-- Resolution of an authoritative fetch promise with an error (lines 399-403).
The `catch` block is empty for abort errors and non-abort errors alike — the
last rendered slice is kept and no state is touched. -/
def resolveFetchFailure (s : EngineState) (ctrl : Nat) (isAbortError : Bool) : EngineState :=
  match s.pendingFetches.find? (fun p => p.ctrl == ctrl) with
  | none => s
  | some _ =>
    let _ := isAbortError
    removePendingFetch s ctrl

/-- Resolution of the pending prefetch promise at position `idx`
(lines 342-349): on success (`result = some`) the `then` branch runs
`cacheSliceSet`; on failure the `catch` swallows the error; in both cases the
`finally` removes the index from the in-flight set.  Note that neither branch
checks the current session. -/
def resolvePrefetch (s : EngineState) (idx : Nat) (result : Option SliceImageSet) :
    EngineState :=
  match s.pendingPrefetches[idx]? with
  | none => s
  | some entry =>
    let s1 : EngineState := { s with pendingPrefetches := s.pendingPrefetches.eraseIdx idx }
    let s2 : EngineState :=
      match result with
      | some sliceSet => { s1 with cache := cacheSliceSet s1.cache entry.sliceIndex sliceSet }
      | none => s1
    { s2 with prefetchInFlight := s2.prefetchInFlight.filter (fun j => j ≠ entry.sliceIndex) }

/-- `setAnalysisIdSafe` (lines 569-579): set the session, drop the published and
last-rendered images, clear the cache and the in-flight set, and abort the
outstanding authoritative controller.  Outstanding promises themselves are not
(and cannot be) retracted; only the authoritative one is aborted. -/
def setAnalysisIdSafe (s : EngineState) (nextAnalysisId : Option Nat) : EngineState :=
  let abortedNow := match s.fetchController with
    | some c => c :: s.aborted
    | none => s.aborted
  { s with
    analysisId := nextAnalysisId
    sliceImages := none
    lastRendered := none
    cache := []
    prefetchInFlight := []
    aborted := abortedNow
    fetchController := none }

/-- `((rotation % 360) + 360) % 360` (line 417), JS truncated `%`. -/
def normRotation (r : Int) : Int :=
  ((r.tmod 360) + 360).tmod 360

/-- What one call of `drawSliceImages` paints. `composite` records the image
triple and the draw parameters; the layer order is fixed CT → pericardium → EAT
(flags listed in that order). -/
inductive RenderOutput where
  | demo (sliceIndex totalSlices : Int) (showCT showEAT showPericardium : Bool) (opacity : ℚ)
  | blank
  | composite (images : RenderedImages) (showCT showPericardium showEAT : Bool)
      (opacity : ℚ) (rotation : Int)
  deriving DecidableEq

/-- `sliceImages && sliceImages.sliceIndex === viewerState.currentSlice` (line 420). -/
def currentReady (s : EngineState) : Bool :=
  match s.sliceImages with
  | some r => r.sliceIndex == s.viewer.currentSlice
  | none => false

/-- What `drawSliceImages` (lines 410-460) paints: with a session, the current
images when ready, else the `lastRenderedRef` fallback, else a blank frame;
without a session, the procedural demo slice. -/
def drawOutput (s : EngineState) : RenderOutput :=
  match s.analysisId with
  | none =>
    .demo s.viewer.currentSlice s.viewer.totalSlices s.viewer.showCT s.viewer.showEAT
      s.viewer.showPericardium s.viewer.overlayOpacity
  | some _ =>
    let imagesToDraw := if currentReady s then s.sliceImages else s.lastRendered
    match imagesToDraw with
    | none => .blank
    | some imgs =>
      .composite imgs s.viewer.showCT s.viewer.showPericardium s.viewer.showEAT
        s.viewer.overlayOpacity (normRotation s.viewer.rotation)

/-- The state effect of `drawSliceImages` (lines 442-444): when the current
slice was drawn, it is recorded in `lastRenderedRef`. -/
def drawCommit (s : EngineState) : EngineState :=
  match s.analysisId with
  | none => s
  | some _ =>
    let imagesToDraw := if currentReady s then s.sliceImages else s.lastRendered
    match imagesToDraw with
    | none => s
    | some _ => if currentReady s then { s with lastRendered := s.sliceImages } else s

/-- `drawSliceImages` (lines 410-460): the painted output plus the state effect. -/
def drawSliceImages (s : EngineState) : RenderOutput × EngineState :=
  (drawOutput s, drawCommit s)

/-- The fractional position accumulator of a wheel-inertia frame after adding
`velocity × elapsed-frames`, i.e. the value the step is computed from
(lines 475, 486). -/
def wheelAccumNext (timestamp : ℚ) (w : WheelState) : ℚ :=
  w.accum + w.velocity * ((timestamp - w.lastTime.getD timestamp) / (1667/100))

/-! ### Concrete scenario states used by the testable-property claims -/

/-- A distinguishable dummy image triple for slice-cache scenarios. -/
def dummySet (n : Nat) : SliceImageSet := ⟨n, n, n⟩

/-- Insert slice indices `0..49` sequentially into an empty cache (claim C2's
scenario). -/
def insertSeqC2 : Cache :=
  (List.range 50).foldl (fun c i => cacheSliceSet c (Int.ofNat i) (dummySet i)) []

/-- Cache after inserting indices `0`, `1`, `2` (claim C3's scenario start). -/
def c3Start : Cache :=
  cacheSliceSet (cacheSliceSet (cacheSliceSet [] 0 (dummySet 0)) 1 (dummySet 1)) 2 (dummySet 2)

/-- Claim C3's scenario: insert `0,1,2`, access `0` (the hit-path recency
refresh), then insert the 38 fresh indices `3..40`. -/
def c3After : Cache :=
  ((List.range 38).map (fun n => (Int.ofNat (n + 3)))).foldl
    (fun c k => cacheSliceSet c k (dummySet k.toNat)) (touchSlice c3Start 0)

/-- Claim C4's interleaving, up to the session change: session 1 becomes active,
slice 5 is navigated to (cache miss, authoritative fetch with controller 0),
that fetch succeeds (caching slice 5 and starting prefetches for 6,4,7,3,8,2
under session 1), then `setAnalysisId` switches to session 2 (clearing cache and
in-flight bookkeeping and aborting controller 0).  The session-1 prefetch
promises are still outstanding. -/
def c4AfterSessionChange : EngineState :=
  setAnalysisIdSafe
    (resolveFetchSuccess
      (loadSliceImages (setAnalysisIdSafe initialEngineState (some 1)) 5)
      0 ⟨50, 51, 52⟩)
    (some 2)

/-- A state with session 1 active and slice 5 cached, used to witness the
prefetch-radius and cancellation claims on concrete inputs. -/
def c6State : EngineState :=
  { initialEngineState with analysisId := some 1, cache := [(5, dummySet 5)] }

/-- A state with session 1 active, nothing published for the current slice, and
a last fully-rendered frame for slice 3; used to witness the fallback-render
claim. -/
def c5State : EngineState :=
  { initialEngineState with analysisId := some 1, lastRendered := some ⟨3, dummySet 3⟩ }

/-! ### Cache lemmas -/

theorem evictOldestAux_length_le (fuel : Nat) :
    ∀ c : Cache, c.length ≤ SLICE_CACHE_LIMIT + fuel →
      (evictOldestAux fuel c).length ≤ SLICE_CACHE_LIMIT := by
  induction fuel with
  | zero => intro c h; simpa [evictOldestAux] using h
  | succ fuel ih =>
    intro c h
    rw [evictOldestAux]
    by_cases hlen : c.length > SLICE_CACHE_LIMIT
    · rw [if_pos hlen]
      apply ih
      simp only [List.length_drop]
      omega
    · rw [if_neg hlen]
      omega

theorem evictOldest_length_le (c : Cache) : (evictOldest c).length ≤ SLICE_CACHE_LIMIT := by
  apply evictOldestAux_length_le
  omega

theorem cacheSliceSet_length_le (c : Cache) (k : Int) (v : SliceImageSet) :
    (cacheSliceSet c k v).length ≤ SLICE_CACHE_LIMIT :=
  evictOldest_length_le _

/-! ### Claim theorems: cache capacity and LRU behaviour -/

set_option maxRecDepth 100000 in
/-- Claim C2: the slice cache never holds more than `SLICE_CACHE_LIMIT = 40`
entries (every insertion leaves at most 40 entries), and eviction removes the
least-recently-used end: inserting slice indices `0..49` sequentially into an
empty cache with no intervening reads leaves exactly the indices `10..49`, in
insertion order. -/
theorem C2_cache_capacity_lru :
    (∀ (c : Cache) (k : Int) (v : SliceImageSet),
       (cacheSliceSet c k v).length ≤ SLICE_CACHE_LIMIT) ∧
    insertSeqC2.map Prod.fst = (List.range' 10 40).map (fun n => (Int.ofNat n)) :=
  ⟨cacheSliceSet_length_le, by decide⟩

set_option maxRecDepth 100000 in
/-- Claim C3: a cache hit moves the accessed entry to the most-recently-used
position.  After inserting `0,1,2`, accessing `0` (the hit-path recency
refresh), and inserting 38 more fresh indices `3..40`, the cache is at capacity
40, still contains index `0`, and has evicted index `1`. -/
theorem C3_hit_moves_to_mru :
    c3After.length = SLICE_CACHE_LIMIT ∧
    (cacheLookup c3After 0).isSome = true ∧
    cacheLookup c3After 1 = none := by
  decide

/-! ### Claim C4: stale prefetch crosses a session change (code bug) -/

/-- Claim C4 fails on the code: in the concrete interleaving of
`c4AfterSessionChange`, session 2 is active, the cache and in-flight set were
cleared, yet the still-outstanding prefetch of slice 6 that was started under
session 1 resolves and inserts its session-1 image set into the cache observed
under session 2 — the prefetch continuation checks no session identity.  A
subsequent navigation to slice 6 under session 2 would serve session 1's
images as a cache hit. -/
theorem C4_stale_prefetch_pollutes :
    c4AfterSessionChange.analysisId = some 2 ∧
    c4AfterSessionChange.cache = [] ∧
    c4AfterSessionChange.prefetchInFlight = [] ∧
    c4AfterSessionChange.pendingPrefetches[0]? = some ⟨6, 1⟩ ∧
    (resolvePrefetch c4AfterSessionChange 0 (some ⟨60, 61, 62⟩)).analysisId = some 2 ∧
    cacheLookup (resolvePrefetch c4AfterSessionChange 0 (some ⟨60, 61, 62⟩)).cache 6 =
      some ⟨60, 61, 62⟩ := by
  decide

/-! ### Claim C8: setSlice clamps -/

/-- Claim C8: for every viewer state with `totalSlices > 0` and every integer
`n`, `setSlice n` sets `currentSlice` to `clamp(n, 0, totalSlices - 1)`. -/
theorem C8_setSlice_clamp (v : ViewerState) (n : Int) (h : 0 < v.totalSlices) :
    (setSlice n v).currentSlice = specClamp n 0 (v.totalSlices - 1) := by
  simp [setSlice, clampSlice, specClamp]

/-- Witness for C8 at a concrete state and argument. -/
theorem C8_setSlice_clamp_witness :
    (setSlice 1000 (initialViewerState 120)).currentSlice =
      specClamp 1000 0 ((initialViewerState 120).totalSlices - 1) :=
  C8_setSlice_clamp (initialViewerState 120) 1000 (by decide)

/-! ### Navigation-state machine lemmas -/

theorem clampSlice_bounds (x total : Int) (h : 1 ≤ total) :
    0 ≤ clampSlice x total ∧ clampSlice x total ≤ total - 1 := by
  unfold clampSlice
  omega

/-- A wheel-inertia frame either leaves the viewer state unchanged or clamps
`currentSlice` by a whole step; no other field changes. -/
theorem applyWheelInertia_viewer (decay : ℚ → ℚ) (ts : ℚ) (w : WheelState) (v : ViewerState) :
    (applyWheelInertia decay ts w v).2 = v ∨
    (applyWheelInertia decay ts w v).2 =
      { v with currentSlice :=
          clampSlice (v.currentSlice + wheelStepOf (wheelAccumNext ts w)) v.totalSlices } := by
  simp only [applyWheelInertia, wheelAccumNext]
  split_ifs with h1 h2
  · exact Or.inl rfl
  · exact Or.inr rfl
  · exact Or.inl rfl

theorem stepMutator_sliceInv (s : NavState) (op : MutatorOp) (h : sliceInv s.1)
    (hop : totalOk op = true) :
    sliceInv (stepMutator s op).1 := by
  obtain ⟨h0, h1⟩ := h
  have htot : 1 ≤ s.1.totalSlices := by omega
  cases op with
  | mSetSlice n =>
    exact (by simpa [stepMutator, setSlice, sliceInv] using clampSlice_bounds n s.1.totalSlices htot)
  | mNextSlice =>
    exact (by simpa [stepMutator, nextSlice, sliceInv] using
      clampSlice_bounds (s.1.currentSlice + 1) s.1.totalSlices htot)
  | mPrevSlice =>
    exact (by simpa [stepMutator, prevSlice, sliceInv] using
      clampSlice_bounds (s.1.currentSlice - 1) s.1.totalSlices htot)
  | mToggleLayer layer => simpa [stepMutator, toggleLayer, sliceInv] using And.intro h0 h1
  | mSetOpacity q => simpa [stepMutator, setOpacity, sliceInv] using And.intro h0 h1
  | mRotateLeft => simpa [stepMutator, rotateLeft, sliceInv] using And.intro h0 h1
  | mRotateRight => simpa [stepMutator, rotateRight, sliceInv] using And.intro h0 h1
  | mSetTotalSlices t =>
    have ht : 0 < t := by simpa [totalOk] using hop
    have := clampSlice_bounds s.1.currentSlice t (by omega)
    simpa [stepMutator, setTotalSlices, sliceInv] using this
  | mWheelDelta d => simpa [stepMutator, sliceInv] using And.intro h0 h1
  | mWheelFrame decay ts =>
    rcases applyWheelInertia_viewer decay ts s.2 s.1 with hv | hv <;>
      simp only [stepMutator] <;> rw [hv]
    · exact ⟨h0, h1⟩
    · simpa [sliceInv] using
        clampSlice_bounds (s.1.currentSlice + wheelStepOf (wheelAccumNext ts s.2))
          s.1.totalSlices htot

/-- Claim C7: for every sequence of mutator calls (`setSlice`, `nextSlice`,
`prevSlice`, layer/opacity/rotation toggles, wheel deltas and wheel-inertia
frames, and `setTotalSlices` restricted to positive totals), every state
reachable from a state satisfying `0 ≤ currentSlice ≤ totalSlices - 1` still
satisfies it: each mutator clamps its target rather than rejecting input. -/
theorem C7_slice_invariant (s : NavState) (ops : List MutatorOp)
    (hs : sliceInv s.1) (hops : validTotals ops = true) :
    sliceInv (runMutators s ops).1 := by
  induction ops generalizing s with
  | nil => simpa [runMutators] using hs
  | cons op rest ih =>
    rw [validTotals, List.all_cons, Bool.and_eq_true] at hops
    obtain ⟨hop1, hrest⟩ := hops
    have hstep := stepMutator_sliceInv s op hs hop1
    simpa [runMutators] using ih (stepMutator s op) hstep hrest

/-- Witness for C7 on a concrete run: from the initial state, a slice jump far
out of range, stepping, a shrink of the total, and a wheel pulse with one
inertia frame all keep the invariant. -/
theorem C7_slice_invariant_witness :
    sliceInv (runMutators (initialNavState 120)
      [.mSetSlice 1000, .mNextSlice, .mSetTotalSlices 5, .mPrevSlice,
       .mWheelDelta 240, .mWheelFrame (fun _ => 17/20) (1667/100),
       .mRotateRight, .mToggleLayer .eat]).1 :=
  C7_slice_invariant (initialNavState 120) _ (by decide) (by rfl)

/-! ### Rotation lemmas (claim C10) -/

/-- Rotation is one of the four axis-aligned values. -/
def rotOK (r : Int) : Prop :=
  r = 0 ∨ r = 90 ∨ r = 180 ∨ r = 270

instance (r : Int) : Decidable (rotOK r) := by
  unfold rotOK; infer_instance

/-- No mutator other than `rotateLeft` / `rotateRight` touches rotation. -/
theorem stepMutator_rotation_untouched (s : NavState) (op : MutatorOp)
    (hl : op ≠ .mRotateLeft) (hr : op ≠ .mRotateRight) :
    (stepMutator s op).1.rotation = s.1.rotation := by
  cases op with
  | mRotateLeft => exact absurd rfl hl
  | mRotateRight => exact absurd rfl hr
  | mWheelFrame decay ts =>
    rcases applyWheelInertia_viewer decay ts s.2 s.1 with hv | hv <;>
      simp only [stepMutator] <;> rw [hv]
  | mSetSlice n => rfl
  | mNextSlice => rfl
  | mPrevSlice => rfl
  | mToggleLayer layer => rfl
  | mSetOpacity q => rfl
  | mSetTotalSlices t => rfl
  | mWheelDelta d => rfl

theorem stepMutator_rotOK (s : NavState) (op : MutatorOp) (h : rotOK s.1.rotation) :
    rotOK (stepMutator s op).1.rotation := by
  by_cases hl : op = .mRotateLeft
  · subst hl
    have : (stepMutator s .mRotateLeft).1.rotation = (s.1.rotation + 270).tmod 360 := rfl
    rw [this]
    rcases h with h | h | h | h <;> rw [h] <;> decide
  · by_cases hr : op = .mRotateRight
    · subst hr
      have : (stepMutator s .mRotateRight).1.rotation = (s.1.rotation + 90).tmod 360 := rfl
      rw [this]
      rcases h with h | h | h | h <;> rw [h] <;> decide
    · rw [stepMutator_rotation_untouched s op hl hr]
      exact h

theorem runMutators_rotOK (s : NavState) (ops : List MutatorOp) (h : rotOK s.1.rotation) :
    rotOK (runMutators s ops).1.rotation := by
  induction ops generalizing s with
  | nil => simpa [runMutators] using h
  | cons op rest ih =>
    simpa [runMutators] using ih (stepMutator s op) (stepMutator_rotOK s op h)

/-- Claim C10: rotation starts at 0 and stays in `{0, 90, 180, 270}` in every
reachable viewer state; only `rotateLeft` (adds 270 mod 360) and `rotateRight`
(adds 90 mod 360) change it; four `rotateRight` calls are the identity on any
reachable rotation, and `rotateLeft` from rotation 0 yields 270. -/
theorem C10_rotation_values :
    (∀ (n : Int) (ops : List MutatorOp), rotOK ((runMutators (initialNavState n) ops).1.rotation)) ∧
    (∀ (s : NavState) (op : MutatorOp), op ≠ .mRotateLeft → op ≠ .mRotateRight →
       (stepMutator s op).1.rotation = s.1.rotation) ∧
    (∀ s : NavState, rotOK s.1.rotation →
       (runMutators s [.mRotateRight, .mRotateRight, .mRotateRight, .mRotateRight]).1.rotation
         = s.1.rotation) ∧
    (∀ s : NavState, s.1.rotation = 0 →
       (runMutators s [.mRotateLeft]).1.rotation = 270) := by
  refine ⟨fun n ops => runMutators_rotOK _ ops (Or.inl rfl), stepMutator_rotation_untouched,
    fun s h => ?_, fun s h => ?_⟩
  · have hrw : (runMutators s [.mRotateRight, .mRotateRight, .mRotateRight, .mRotateRight]).1.rotation
        = (((((s.1.rotation + 90).tmod 360 + 90).tmod 360 + 90).tmod 360 + 90).tmod 360) := rfl
    rw [hrw]
    rcases h with h | h | h | h <;> rw [h] <;> decide
  · have hrw : (runMutators s [.mRotateLeft]).1.rotation = (s.1.rotation + 270).tmod 360 := rfl
    rw [hrw, h]
    decide

/-! ### Claim C9: wheel-inertia accumulator consumption -/

theorem wheelStep_sub_abs_lt_one (a : ℚ) : |a - (wheelStepOf a : ℚ)| < 1 := by
  unfold wheelStepOf
  by_cases h0 : 0 ≤ a
  · rw [if_pos h0, Int.self_sub_floor, abs_of_nonneg (Int.fract_nonneg a)]
    exact Int.fract_lt_one a
  · rw [if_neg h0, abs_of_nonpos (sub_nonpos.mpr (Int.le_ceil a))]
    have := Int.ceil_lt_add_one a
    push_cast at this ⊢
    linarith

/-- Claim C9: on a wheel-inertia frame where the accumulator (after adding
`velocity × elapsed-frames`) holds at least one whole step, the slice index
advances by exactly that whole step (clamped), the consumed whole part is
subtracted from the accumulator leaving a remainder of magnitude strictly
less than 1, and the step is the floor of the accumulator when it is
nonnegative and the ceiling when it is negative. -/
theorem C9_wheel_accumulator (decay : ℚ → ℚ) (ts : ℚ) (w : WheelState) (v : ViewerState)
    (hvel : ¬ |w.velocity| < 1/100)
    (hstep : wheelStepOf (wheelAccumNext ts w) ≠ 0) :
    (applyWheelInertia decay ts w v).2.currentSlice
      = clampSlice (v.currentSlice + wheelStepOf (wheelAccumNext ts w)) v.totalSlices ∧
    (applyWheelInertia decay ts w v).1.accum
      = wheelAccumNext ts w - (wheelStepOf (wheelAccumNext ts w) : ℚ) ∧
    |(applyWheelInertia decay ts w v).1.accum| < 1 ∧
    (0 ≤ wheelAccumNext ts w → wheelStepOf (wheelAccumNext ts w) = ⌊wheelAccumNext ts w⌋) ∧
    (wheelAccumNext ts w < 0 → wheelStepOf (wheelAccumNext ts w) = ⌈wheelAccumNext ts w⌉) := by
  have hstep' : wheelStepOf (w.accum + w.velocity * ((ts - w.lastTime.getD ts) / (1667/100))) ≠ 0 := by
    simpa [wheelAccumNext] using hstep
  have hout : applyWheelInertia decay ts w v
      = ({ velocity := w.velocity * decay (max 1 ((ts - w.lastTime.getD ts) / (1667/100)))
           accum := wheelAccumNext ts w - (wheelStepOf (wheelAccumNext ts w) : ℚ)
           lastTime := some ts
           rafActive := true },
         { v with currentSlice :=
             clampSlice (v.currentSlice + wheelStepOf (wheelAccumNext ts w)) v.totalSlices }) := by
    simp only [applyWheelInertia, wheelAccumNext]
    rw [if_neg hvel, if_pos hstep', if_pos hstep']
  refine ⟨by rw [hout], by rw [hout], ?_, ?_, ?_⟩
  · rw [hout]
    exact wheelStep_sub_abs_lt_one (wheelAccumNext ts w)
  · intro h0
    unfold wheelStepOf
    rw [if_pos h0]
  · intro h0
    unfold wheelStepOf
    rw [if_neg (not_le.mpr h0)]

/-- Witness for C9 at a concrete frame: velocity 2, accumulator 0, previous
timestamp 0, current timestamp 16.67 (one elapsed frame), so the accumulator
reaches 2 and two whole steps are consumed. -/
theorem C9_wheel_accumulator_witness :
    (applyWheelInertia (fun _ => 17/20) (1667/100)
        { velocity := 2, accum := 0, lastTime := some 0, rafActive := true }
        (initialViewerState 120)).2.currentSlice
      = clampSlice ((initialViewerState 120).currentSlice
          + wheelStepOf (wheelAccumNext (1667/100)
              { velocity := 2, accum := 0, lastTime := some 0, rafActive := true }))
          (initialViewerState 120).totalSlices ∧
    (applyWheelInertia (fun _ => 17/20) (1667/100)
        { velocity := 2, accum := 0, lastTime := some 0, rafActive := true }
        (initialViewerState 120)).1.accum
      = wheelAccumNext (1667/100)
          { velocity := 2, accum := 0, lastTime := some 0, rafActive := true }
        - (wheelStepOf (wheelAccumNext (1667/100)
            { velocity := 2, accum := 0, lastTime := some 0, rafActive := true }) : ℚ) ∧
    |(applyWheelInertia (fun _ => 17/20) (1667/100)
        { velocity := 2, accum := 0, lastTime := some 0, rafActive := true }
        (initialViewerState 120)).1.accum| < 1 ∧
    (0 ≤ wheelAccumNext (1667/100)
          { velocity := 2, accum := 0, lastTime := some 0, rafActive := true } →
       wheelStepOf (wheelAccumNext (1667/100)
          { velocity := 2, accum := 0, lastTime := some 0, rafActive := true })
         = ⌊wheelAccumNext (1667/100)
              { velocity := 2, accum := 0, lastTime := some 0, rafActive := true }⌋) ∧
    (wheelAccumNext (1667/100)
          { velocity := 2, accum := 0, lastTime := some 0, rafActive := true } < 0 →
       wheelStepOf (wheelAccumNext (1667/100)
          { velocity := 2, accum := 0, lastTime := some 0, rafActive := true })
         = ⌈wheelAccumNext (1667/100)
              { velocity := 2, accum := 0, lastTime := some 0, rafActive := true }⌉) :=
  C9_wheel_accumulator (fun _ => 17/20) (1667/100)
    { velocity := 2, accum := 0, lastTime := some 0, rafActive := true }
    (initialViewerState 120) (by norm_num)
    (by norm_num [wheelStepOf, wheelAccumNext, Option.getD])

/-- Witness for C10: four `rotateRight` calls from the initial state restore
rotation, and one `rotateLeft` from the initial state yields 270. -/
theorem C10_rotation_values_witness :
    (runMutators (initialNavState 120)
        [.mRotateRight, .mRotateRight, .mRotateRight, .mRotateRight]).1.rotation
      = (initialNavState 120).1.rotation ∧
    (runMutators (initialNavState 120) [.mRotateLeft]).1.rotation = 270 :=
  ⟨C10_rotation_values.2.2.1 (initialNavState 120) (by decide),
   C10_rotation_values.2.2.2 (initialNavState 120) rfl⟩

/-! ### Prefetcher lemmas (claim C6) -/

theorem prefetchSlice_cache (s : EngineState) (k : Int) (sess : Nat) :
    (prefetchSlice s k sess).cache = s.cache := by
  unfold prefetchSlice
  split_ifs <;> rfl

theorem prefetchSlice_sliceImages (s : EngineState) (k : Int) (sess : Nat) :
    (prefetchSlice s k sess).sliceImages = s.sliceImages := by
  unfold prefetchSlice
  split_ifs <;> rfl

theorem prefetchSlice_mem_inFlight (s : EngineState) (k : Int) (sess : Nat) (j : Int) :
    j ∈ (prefetchSlice s k sess).prefetchInFlight ↔
      j ∈ s.prefetchInFlight ∨
      (j = k ∧ cacheLookup s.cache k = none ∧ k ∉ s.prefetchInFlight) := by
  unfold prefetchSlice
  split_ifs with h
  · constructor
    · exact Or.inl
    · rintro (hj | ⟨rfl, hn, hnin⟩)
      · exact hj
      · rcases h with h | h
        · rw [hn] at h
          simp at h
        · exact absurd h hnin
  · obtain ⟨h1, h2⟩ := not_or.mp h
    simp only [List.mem_append, List.mem_singleton]
    constructor
    · rintro (hj | rfl)
      · exact Or.inl hj
      · exact Or.inr ⟨rfl, Option.not_isSome_iff_eq_none.mp h1, h2⟩
    · rintro (hj | ⟨rfl, h3, h4⟩)
      · exact Or.inl hj
      · exact Or.inr rfl

theorem prefetchSlice_mem_pending (s : EngineState) (k : Int) (sess : Nat)
    (e : PendingPrefetch) :
    e ∈ (prefetchSlice s k sess).pendingPrefetches ↔
      e ∈ s.pendingPrefetches ∨
      (e = ⟨k, sess⟩ ∧ cacheLookup s.cache k = none ∧ k ∉ s.prefetchInFlight) := by
  unfold prefetchSlice
  split_ifs with h
  · constructor
    · exact Or.inl
    · rintro (hj | ⟨rfl, hn, hnin⟩)
      · exact hj
      · rcases h with h | h
        · rw [hn] at h
          simp at h
        · exact absurd h hnin
  · obtain ⟨h1, h2⟩ := not_or.mp h
    simp only [List.mem_append, List.mem_singleton]
    constructor
    · rintro (hj | rfl)
      · exact Or.inl hj
      · exact Or.inr ⟨rfl, Option.not_isSome_iff_eq_none.mp h1, h2⟩
    · rintro (hj | ⟨rfl, h3, h4⟩)
      · exact Or.inl hj
      · exact Or.inr rfl

theorem prefetchMany_cons (s : EngineState) (sess : Nat) (k : Int) (rest : List Int) :
    prefetchMany s sess (k :: rest) = prefetchMany (prefetchSlice s k sess) sess rest :=
  rfl

theorem prefetchMany_cache (s : EngineState) (sess : Nat) (js : List Int) :
    (prefetchMany s sess js).cache = s.cache := by
  induction js generalizing s with
  | nil => rfl
  | cons k rest ih =>
    rw [prefetchMany_cons, ih, prefetchSlice_cache]

theorem prefetchMany_sliceImages (s : EngineState) (sess : Nat) (js : List Int) :
    (prefetchMany s sess js).sliceImages = s.sliceImages := by
  induction js generalizing s with
  | nil => rfl
  | cons k rest ih =>
    rw [prefetchMany_cons, ih, prefetchSlice_sliceImages]

theorem prefetchMany_mem_inFlight (sess : Nat) (js : List Int) (s : EngineState) (j : Int) :
    j ∈ (prefetchMany s sess js).prefetchInFlight ↔
      j ∈ s.prefetchInFlight ∨
      (j ∈ js ∧ cacheLookup s.cache j = none ∧ j ∉ s.prefetchInFlight) := by
  induction js generalizing s with
  | nil => simp [prefetchMany]
  | cons k rest ih =>
    rw [prefetchMany_cons, ih, prefetchSlice_cache, prefetchSlice_mem_inFlight]
    simp only [List.mem_cons]
    by_cases hjk : j = k
    · subst hjk
      tauto
    · tauto

theorem prefetchMany_mem_pending (sess : Nat) (js : List Int) (s : EngineState)
    (e : PendingPrefetch) :
    e ∈ (prefetchMany s sess js).pendingPrefetches ↔
      e ∈ s.pendingPrefetches ∨
      (e.session = sess ∧ e.sliceIndex ∈ js ∧ cacheLookup s.cache e.sliceIndex = none ∧
        e.sliceIndex ∉ s.prefetchInFlight) := by
  induction js generalizing s with
  | nil => simp [prefetchMany]
  | cons k rest ih =>
    rw [prefetchMany_cons, ih, prefetchSlice_cache, prefetchSlice_mem_pending,
      prefetchSlice_mem_inFlight]
    obtain ⟨ei, es⟩ := e
    simp only [List.mem_cons, PendingPrefetch.mk.injEq]
    by_cases hjk : ei = k
    · subst hjk
      by_cases hes : es = sess <;> tauto
    · tauto

theorem mem_neighborCandidates (i total j : Int) (hi0 : 0 ≤ i) (hit : i < total) :
    j ∈ neighborCandidates i total ↔
      ((j = i + 1 ∨ j = i - 1 ∨ j = i + 2 ∨ j = i - 2 ∨ j = i + 3 ∨ j = i - 3) ∧
        0 ≤ j ∧ j ≤ total - 1) := by
  unfold neighborCandidates
  split_ifs <;> simp [List.mem_append] <;> omega

/-- Claim C6: after every successful load of slice `i` under an active session
(cache hit, first conjunct, or authoritative fetch success, second conjunct),
the prefetcher marks in flight (and issues a prefetch for) exactly those slices
among `i-3..i-1, i+1..i+3` that lie in `[0, totalSlices-1]`, are not already
cached (in the cache as it stands after inserting slice `i`), and are not
already in flight; and (third conjunct) a prefetch resolution removes its index
from the in-flight set regardless of outcome, while a failed prefetch changes
neither cache, published images, last-rendered frame, viewer state, nor
session. -/
theorem C6_prefetch_radius :
    (∀ (s : EngineState) (i : Int) (a : Nat) (v : SliceImageSet),
       s.analysisId = some a →
       cacheLookup s.cache i = some v →
       0 ≤ i → i < s.viewer.totalSlices →
       ∀ j : Int,
         (j ∈ (loadSliceImages s i).prefetchInFlight ↔
           j ∈ s.prefetchInFlight ∨
           ((j = i + 1 ∨ j = i - 1 ∨ j = i + 2 ∨ j = i - 2 ∨ j = i + 3 ∨ j = i - 3) ∧
            0 ≤ j ∧ j ≤ s.viewer.totalSlices - 1 ∧
            cacheLookup (cacheSliceSet s.cache i v) j = none ∧
            j ∉ s.prefetchInFlight)) ∧
         (∀ sess : Nat,
           (⟨j, sess⟩ : PendingPrefetch) ∈ (loadSliceImages s i).pendingPrefetches ↔
           (⟨j, sess⟩ : PendingPrefetch) ∈ s.pendingPrefetches ∨
           (sess = a ∧
            (j = i + 1 ∨ j = i - 1 ∨ j = i + 2 ∨ j = i - 2 ∨ j = i + 3 ∨ j = i - 3) ∧
            0 ≤ j ∧ j ≤ s.viewer.totalSlices - 1 ∧
            cacheLookup (cacheSliceSet s.cache i v) j = none ∧
            j ∉ s.prefetchInFlight))) ∧
    (∀ (s : EngineState) (ctrl : Nat) (p : PendingFetch) (res : SliceImageSet),
       s.pendingFetches.find? (fun q => q.ctrl == ctrl) = some p →
       ctrl ∉ s.aborted →
       0 ≤ p.sliceIndex → p.sliceIndex < p.total →
       ∀ j : Int,
         j ∈ (resolveFetchSuccess s ctrl res).prefetchInFlight ↔
           j ∈ s.prefetchInFlight ∨
           ((j = p.sliceIndex + 1 ∨ j = p.sliceIndex - 1 ∨ j = p.sliceIndex + 2 ∨
             j = p.sliceIndex - 2 ∨ j = p.sliceIndex + 3 ∨ j = p.sliceIndex - 3) ∧
            0 ≤ j ∧ j ≤ p.total - 1 ∧
            cacheLookup (cacheSliceSet s.cache p.sliceIndex res) j = none ∧
            j ∉ s.prefetchInFlight)) ∧
    (∀ (t : EngineState) (idx : Nat) (entry : PendingPrefetch) (res : Option SliceImageSet),
       t.pendingPrefetches[idx]? = some entry →
       entry.sliceIndex ∉ (resolvePrefetch t idx res).prefetchInFlight ∧
       (res = none →
         (resolvePrefetch t idx res).cache = t.cache ∧
         (resolvePrefetch t idx res).sliceImages = t.sliceImages ∧
         (resolvePrefetch t idx res).lastRendered = t.lastRendered ∧
         (resolvePrefetch t idx res).viewer = t.viewer ∧
         (resolvePrefetch t idx res).analysisId = t.analysisId)) := by
  refine ⟨?_, ?_, ?_⟩
  · intro s i a v hA hc hi0 hit j
    simp only [loadSliceImages, hA, hc]
    constructor
    · rw [prefetchMany_mem_inFlight]
      simp only
      rw [mem_neighborCandidates i s.viewer.totalSlices j hi0 hit]
      tauto
    · intro sess
      rw [prefetchMany_mem_pending]
      simp only
      rw [mem_neighborCandidates i s.viewer.totalSlices j hi0 hit]
      tauto
  · intro s ctrl p res hfind hab hp0 hpt j
    simp only [resolveFetchSuccess, hfind, removePendingFetch]
    rw [if_neg hab]
    simp only [applyFetchSuccess]
    rw [prefetchMany_mem_inFlight]
    simp only
    rw [mem_neighborCandidates p.sliceIndex p.total j hp0 hpt]
    tauto
  · intro t idx entry res hentry
    constructor
    · simp only [resolvePrefetch, hentry]
      cases res <;> simp [List.mem_filter]
    · rintro rfl
      simp [resolvePrefetch, hentry]

/-- Witness for C6: in `c6State` (session 1, slice 5 cached), a cache hit on
slice 5 puts slice 6 in flight and issues a prefetch for it under session 1. -/
theorem C6_prefetch_radius_witness :
    ((6 : Int) ∈ (loadSliceImages c6State 5).prefetchInFlight ↔
      (6 : Int) ∈ c6State.prefetchInFlight ∨
      (((6 : Int) = 5 + 1 ∨ (6 : Int) = 5 - 1 ∨ (6 : Int) = 5 + 2 ∨ (6 : Int) = 5 - 2 ∨
        (6 : Int) = 5 + 3 ∨ (6 : Int) = 5 - 3) ∧
       (0 : Int) ≤ 6 ∧ (6 : Int) ≤ c6State.viewer.totalSlices - 1 ∧
       cacheLookup (cacheSliceSet c6State.cache 5 (dummySet 5)) 6 = none ∧
       (6 : Int) ∉ c6State.prefetchInFlight)) ∧
    (∀ sess : Nat,
      (⟨6, sess⟩ : PendingPrefetch) ∈ (loadSliceImages c6State 5).pendingPrefetches ↔
      (⟨6, sess⟩ : PendingPrefetch) ∈ c6State.pendingPrefetches ∨
      (sess = 1 ∧
       ((6 : Int) = 5 + 1 ∨ (6 : Int) = 5 - 1 ∨ (6 : Int) = 5 + 2 ∨ (6 : Int) = 5 - 2 ∨
        (6 : Int) = 5 + 3 ∨ (6 : Int) = 5 - 3) ∧
       (0 : Int) ≤ 6 ∧ (6 : Int) ≤ c6State.viewer.totalSlices - 1 ∧
       cacheLookup (cacheSliceSet c6State.cache 5 (dummySet 5)) 6 = none ∧
       (6 : Int) ∉ c6State.prefetchInFlight)) :=
  C6_prefetch_radius.1 c6State 5 1 (dummySet 5) rfl (by decide) (by decide) (by decide) 6

/-! ### Claims C1 and C5: request coordination and failure fallback -/

theorem drawOutput_congr (s t : EngineState)
    (h1 : s.analysisId = t.analysisId) (h2 : s.viewer = t.viewer)
    (h3 : s.sliceImages = t.sliceImages) (h4 : s.lastRendered = t.lastRendered) :
    drawOutput s = drawOutput t := by
  unfold drawOutput currentReady
  rw [h1, h2, h3, h4]

theorem drawOutput_removePendingFetch (s : EngineState) (ctrl : Nat) :
    drawOutput (removePendingFetch s ctrl) = drawOutput s :=
  drawOutput_congr _ _ rfl rfl rfl rfl

/-- Claim C1: on an active session and a cache miss, changing the current slice
aborts the previously outstanding authoritative controller and issues exactly
one new fetch, for the target slice, under the fresh controller (first
conjunct); and resolving a fetch whose controller was aborted before resolution
mutates nothing — the cache at its index stays unpopulated, the published and
last-rendered images are untouched, and the rendered output is unchanged
(second conjunct). -/
theorem C1_single_flight_cancellation :
    (∀ (s : EngineState) (i : Int) (a : Nat),
       s.analysisId = some a →
       cacheLookup s.cache i = none →
       (loadSliceImages s i).pendingFetches
         = s.pendingFetches ++ [⟨s.nextCtrl, i, a, s.viewer.totalSlices⟩] ∧
       (loadSliceImages s i).fetchController = some s.nextCtrl ∧
       (∀ c : Nat, s.fetchController = some c → c ∈ (loadSliceImages s i).aborted)) ∧
    (∀ (t : EngineState) (ctrl : Nat) (res : SliceImageSet),
       ctrl ∈ t.aborted →
       (resolveFetchSuccess t ctrl res).cache = t.cache ∧
       (resolveFetchSuccess t ctrl res).sliceImages = t.sliceImages ∧
       (resolveFetchSuccess t ctrl res).lastRendered = t.lastRendered ∧
       (resolveFetchSuccess t ctrl res).prefetchInFlight = t.prefetchInFlight ∧
       drawOutput (resolveFetchSuccess t ctrl res) = drawOutput t) := by
  constructor
  · intro s i a hA hc
    refine ⟨?_, ?_, ?_⟩
    · simp only [loadSliceImages, hA, hc]
    · simp only [loadSliceImages, hA, hc]
    · intro c hcf
      simp only [loadSliceImages, hA, hc, hcf]
      exact List.mem_cons_self _ _
  · intro t ctrl res hab
    cases hfind : t.pendingFetches.find? (fun p => p.ctrl == ctrl) with
    | none =>
      have heq : resolveFetchSuccess t ctrl res = t := by
        simp only [resolveFetchSuccess, hfind]
      rw [heq]
      exact ⟨rfl, rfl, rfl, rfl, rfl⟩
    | some p =>
      have heq : resolveFetchSuccess t ctrl res = removePendingFetch t ctrl := by
        simp only [resolveFetchSuccess, hfind, removePendingFetch]
        rw [if_pos hab]
      rw [heq]
      exact ⟨rfl, rfl, rfl, rfl, drawOutput_removePendingFetch t ctrl⟩

/-- Witness for C1 at a concrete state: navigating to uncached slice 7 in
`c6State` issues exactly one fetch under the fresh controller. -/
theorem C1_single_flight_cancellation_witness :
    (loadSliceImages c6State 7).pendingFetches
      = c6State.pendingFetches ++ [⟨c6State.nextCtrl, 7, 1, c6State.viewer.totalSlices⟩] ∧
    (loadSliceImages c6State 7).fetchController = some c6State.nextCtrl ∧
    (∀ c : Nat, c6State.fetchController = some c → c ∈ (loadSliceImages c6State 7).aborted) :=
  C1_single_flight_cancellation.1 c6State 7 1 rfl (by decide)

/-- Claim C5: when the authoritative fetch fails — for any reason, including
non-cancellation failures — the engine state the renderer reads is untouched
(no blanking, no error surfaced: session, viewer, cache, published images and
last-rendered frame are all unchanged, and the rendered output is identical);
and whenever a session is active, the current slice's images are not ready, and
a last fully-rendered frame exists, the renderer composites that last frame
instead of blanking. -/
theorem C5_failure_retains_frame :
    (∀ (s : EngineState) (ctrl : Nat) (isAbort : Bool),
       (resolveFetchFailure s ctrl isAbort).analysisId = s.analysisId ∧
       (resolveFetchFailure s ctrl isAbort).viewer = s.viewer ∧
       (resolveFetchFailure s ctrl isAbort).cache = s.cache ∧
       (resolveFetchFailure s ctrl isAbort).sliceImages = s.sliceImages ∧
       (resolveFetchFailure s ctrl isAbort).lastRendered = s.lastRendered ∧
       drawOutput (resolveFetchFailure s ctrl isAbort) = drawOutput s) ∧
    (∀ (s : EngineState) (a : Nat) (f : RenderedImages),
       s.analysisId = some a →
       s.lastRendered = some f →
       currentReady s = false →
       drawOutput s
         = .composite f s.viewer.showCT s.viewer.showPericardium s.viewer.showEAT
             s.viewer.overlayOpacity (normRotation s.viewer.rotation)) := by
  constructor
  · intro s ctrl isAbort
    cases hfind : s.pendingFetches.find? (fun p => p.ctrl == ctrl) with
    | none =>
      have heq : resolveFetchFailure s ctrl isAbort = s := by
        simp only [resolveFetchFailure, hfind]
      rw [heq]
      exact ⟨rfl, rfl, rfl, rfl, rfl, rfl⟩
    | some p =>
      have heq : resolveFetchFailure s ctrl isAbort = removePendingFetch s ctrl := by
        simp only [resolveFetchFailure, hfind]
      rw [heq]
      exact ⟨rfl, rfl, rfl, rfl, rfl, drawOutput_removePendingFetch s ctrl⟩
  · intro s a f hA hlr hcr
    simp only [drawOutput, hA, hcr, hlr, Bool.false_eq_true, if_false]

/-- Witness for C5 at a concrete state: in `c5State` (session active, current
slice not ready, last-rendered frame for slice 3), the renderer composites the
last-rendered frame. -/
theorem C5_failure_retains_frame_witness :
    drawOutput c5State
      = .composite ⟨3, dummySet 3⟩ c5State.viewer.showCT c5State.viewer.showPericardium
          c5State.viewer.showEAT c5State.viewer.overlayOpacity
          (normRotation c5State.viewer.rotation) :=
  C5_failure_retains_frame.2 c5State 1 ⟨3, dummySet 3⟩ rfl rfl rfl

end EATCalc
